import Mathlib

/-!
Shallow embedding of the routing/ETA pipeline of `backend/app/maps.py` and
`backend/app/gomap.py` (repository `baku-reserve`).

Modelling conventions:
* Python floats are modelled as exact rationals (`ℚ`), Python ints as `ℤ`.
* Network effects are made explicit: the two provider fetches, the two
  traffic-snapshot fetches and the breaker-gated HTTP call are passed in as
  inputs, so every function below is the pure remainder of the corresponding
  Python function.
* `None`-able Python values become `Option`; Python truthiness on a number
  is "`some` and nonzero", on an object "not `None`".
-/

/-- Python `int(x)` applied to a float: truncation toward zero. -/
def pyInt (q : ℚ) : ℤ := if 0 ≤ q then ⌊q⌋ else ⌈q⌉

/-- Python 3 `round(x)`: round half to even (banker's rounding). -/
def pyRound (q : ℚ) : ℤ :=
  if q - ⌊q⌋ < 1/2 then ⌊q⌋
  else if 1/2 < q - ⌊q⌋ then ⌊q⌋ + 1
  else if ⌊q⌋ % 2 = 0 then ⌊q⌋ else ⌊q⌋ + 1

/-- Python `round(x, 2)`: round half to even at two decimal places. -/
def pyRound2 (q : ℚ) : ℚ := (pyRound (q * 100) : ℚ) / 100

/-- The route record produced by either provider.  The primary's
`GoMapRoute` dataclass is at `backend/app/gomap.py` lines 29-35 (its unused
`raw` field is omitted); the secondary's `OsrmRoute` is consumed by
`maps.py` through exactly these same four fields, so one record models both
candidates (matching `RouteCandidate = GoMapRoute | OsrmRoute`). -/
structure Route where
  distance_km : Option ℚ
  duration_seconds : Option ℤ
  geometry : Option (List (ℚ × ℚ)) := none
  notice : Option String := none
deriving DecidableEq, Repr

/-- `GoMapTraffic` dataclass (`backend/app/gomap.py` lines 38-45, unused
`raw` field omitted).  Severity scale: 0 = no data, 1 = smooth,
2 = moderate, 3 = heavy, 4 = severe. -/
structure GoMapTraffic where
  severity : Option ℤ
  speed_kmh : Option ℚ := none
  delay_minutes : Option ℤ := none
  congestion_level : Option ℚ := none
deriving DecidableEq, Repr

/-- `EtaComputation` dataclass (`backend/app/maps.py` lines 30-41). -/
structure EtaComputation where
  eta_minutes : ℤ
  eta_seconds : ℤ
  route_distance_km : Option ℚ := none
  typical_eta_minutes : Option ℤ := none
  traffic_condition : Option String := none
  route_summary : Option String := none
  provider : String := "gomap"
  traffic_delay_minutes : Option ℤ := none
  route_geometry : Option (List (ℚ × ℚ)) := none
  calibration_note : Option String := none
deriving DecidableEq, Repr

/-- The delay-multiplier table `Settings.parsed_traffic_delay_factors`
(`backend/app/settings.py` lines 137-158): the parsed dictionary always
carries the four condition keys because parsing starts from a copy of the
defaults. -/
structure DelayFactors where
  smooth : ℚ
  moderate : ℚ
  heavy : ℚ
  severe : ℚ
deriving DecidableEq, Repr

/-- The slice of `Settings` (`backend/app/settings.py`) read by the
pipeline functions embedded here. -/
structure Settings where
  GOMAP_TRAFFIC_ENABLED : Bool
  ETA_BUFFER_MINUTES : ℤ
  ETA_HEAVY_BUFFER_MINUTES : ℤ
  MAP_DISTANCE_TOLERANCE : ℚ
  MAP_HAVERSINE_TOLERANCE : ℚ
  TRAFFIC_DELAY_FACTORS : DelayFactors
  GOMAP_RETRY_ATTEMPTS : ℕ
  GOMAP_RETRY_BACKOFF_SECONDS : ℚ
deriving DecidableEq, Repr

/-- Default settings values (`backend/app/settings.py` lines 78-97):
traffic enabled, `ETA_BUFFER_MINUTES = 0`, `ETA_HEAVY_BUFFER_MINUTES = 2`,
`MAP_DISTANCE_TOLERANCE = 0.25`, `MAP_HAVERSINE_TOLERANCE = 0.35`, delay
factors smooth 1.0 / moderate 1.12 / heavy 1.25 / severe 1.4, two retries
with 1.0 s base backoff. -/
def defaultSettings : Settings :=
  { GOMAP_TRAFFIC_ENABLED := true
    ETA_BUFFER_MINUTES := 0
    ETA_HEAVY_BUFFER_MINUTES := 2
    MAP_DISTANCE_TOLERANCE := 1/4
    MAP_HAVERSINE_TOLERANCE := 7/20
    TRAFFIC_DELAY_FACTORS := { smooth := 1, moderate := 28/25, heavy := 5/4, severe := 7/5 }
    GOMAP_RETRY_ATTEMPTS := 2
    GOMAP_RETRY_BACKOFF_SECONDS := 1 }

/-- The `_distance_error` closure of `compute_eta_with_traffic`
(`maps.py` lines 70-73): `None` when the provider reported no distance or
the haversine baseline is zero (float falsiness of `haversine_km`);
otherwise the relative deviation `|d - h| / max h 0.001`. -/
def distance_error (haversine_km : ℚ) (distance : Option ℚ) : Option ℚ :=
  match distance with
  | none => none
  | some d =>
      if haversine_km = 0 then none
      else some (|d - haversine_km| / max haversine_km (1/1000))

/-- Whether a provider's deviation exceeds `MAP_HAVERSINE_TOLERANCE`
(`maps.py` lines 84-85); a missing deviation counts as not far. -/
def isFar (s : Settings) : Option ℚ → Bool
  | some e => decide (s.MAP_HAVERSINE_TOLERANCE < e)
  | none => false

/-- `int(round((gomap.duration_seconds + osrm.duration_seconds) / 2))`
(`maps.py` line 97). -/
def avgDuration (gdur odur : ℤ) : ℤ := pyRound (((gdur + odur : ℤ) : ℚ) / 2)

/-- Reconciliation step of `compute_eta_with_traffic` (`maps.py` lines
75-104): produces `(base_route, base_provider, calibration_note)`.  The
blended-average branch rebuilds a `GoMapRoute` from the primary's distance,
the rounded mean duration, and the primary's geometry and notice. -/
def pickBase (s : Settings) (gomap osrm : Option Route) (haversine_km : ℚ) :
    Option Route × String × Option String :=
  let gomap_error := distance_error haversine_km (gomap.bind Route.distance_km)
  let osrm_error := distance_error haversine_km (osrm.bind Route.distance_km)
  let base0 : Option Route := match gomap with | some g => some g | none => osrm
  let prov0 : String := if gomap.isSome then "gomap" else "osrm"
  match gomap, osrm with
  | some g, some o =>
      match g.distance_km, o.distance_km with
      | some gd, some od =>
          if gd ≠ 0 ∧ od ≠ 0 then
            let dist_diff := |gd - od| / max od (1/1000)
            let gomap_far := isFar s gomap_error
            let osrm_far := isFar s osrm_error
            if gomap_far && !osrm_far then
              (some o, "osrm", some "calibrated via OSRM (GoMap distance high)")
            else if s.MAP_DISTANCE_TOLERANCE < dist_diff ∧ od < gd then
              (some o, "osrm",
                some ("calibrated via OSRM (Î”" ++ toString (pyInt (dist_diff * 100)) ++ "%)"))
            else
              match g.duration_seconds, o.duration_seconds with
              | some gdur, some odur =>
                  if gdur ≠ 0 ∧ odur ≠ 0 then
                    (some { distance_km := some gd,
                            duration_seconds := some (avgDuration gdur odur),
                            geometry := g.geometry,
                            notice := g.notice }, "gomap", none)
                  else (base0, "gomap", none)
              | _, _ => (base0, "gomap", none)
          else (base0, prov0, none)
      | _, _ => (base0, prov0, none)
  | _, _ => (base0, prov0, none)

/-- Distance selection (`maps.py` lines 106-110): the base route's distance
if it `is not None`, else the secondary's. -/
def chooseDistance (base osrm : Option Route) : Option ℚ :=
  match base with
  | some b =>
      match b.distance_km with
      | some d => some d
      | none => osrm.bind Route.distance_km
  | none => osrm.bind Route.distance_km

/-- Duration selection (`maps.py` lines 111-115): the base route's duration
if truthy (present and nonzero), else the secondary's raw duration, else
the primary's, else `None`. -/
def chooseDuration (base gomap osrm : Option Route) : Option ℤ :=
  let fb : Option ℤ :=
    match osrm with
    | some o => o.duration_seconds
    | none =>
        match gomap with
        | some g => g.duration_seconds
        | none => none
  match base with
  | some b =>
      match b.duration_seconds with
      | some d => if d = 0 then fb else some d
      | none => fb
  | none => fb

/-- Worse-of-two severity (`maps.py` lines 138-142): a snapshot contributes
only when it is present and its severity is truthy (nonzero). -/
def maxSeverity (origin_traffic dest_traffic : Option GoMapTraffic) : ℤ :=
  let s1 : ℤ :=
    match origin_traffic with
    | some t => match t.severity with
      | some sv => if sv = 0 then 0 else sv
      | none => 0
    | none => 0
  match dest_traffic with
  | some t => match t.severity with
    | some sv => if sv = 0 then s1 else max s1 sv
    | none => s1
  | none => s1

/-- Severity-to-condition mapping (`maps.py` lines 148-155). -/
def severityCondition (sev : ℤ) : String :=
  if sev = 1 then "smooth"
  else if sev = 2 then "moderate"
  else if sev = 3 then "heavy"
  else "severe"

/-- `delays.get(traffic_condition, 1.0)` (`maps.py` line 156) over the
parsed factor table. -/
def delayFactorFor (f : DelayFactors) (cond : String) : ℚ :=
  if cond = "smooth" then f.smooth
  else if cond = "moderate" then f.moderate
  else if cond = "heavy" then f.heavy
  else if cond = "severe" then f.severe
  else 1

/-- Traffic adjustment (`maps.py` lines 126-174) given the two snapshot
fetch results.  `doTraffic` is `settings.GOMAP_TRAFFIC_ENABLED and gomap`;
`trafficFetch = none` models the caught exception path (lines 172-174).
Returns `(eta_minutes, eta_seconds, traffic_condition,
traffic_delay_minutes)`. -/
def applyTraffic (s : Settings) (doTraffic : Bool)
    (trafficFetch : Option (Option GoMapTraffic × Option GoMapTraffic))
    (base_eta_minutes base_eta_seconds : ℤ) : ℤ × ℤ × Option String × Option ℤ :=
  if doTraffic then
    match trafficFetch with
    | none => (base_eta_minutes, base_eta_seconds, none, none)
    | some (origin_traffic, dest_traffic) =>
        let traffic_severity := maxSeverity origin_traffic dest_traffic
        if 0 < traffic_severity then
          let traffic_condition := severityCondition traffic_severity
          let delay_factor := delayFactorFor s.TRAFFIC_DELAY_FACTORS traffic_condition
          if 1 < delay_factor then
            let adjusted_seconds := pyInt ((base_eta_seconds : ℚ) * delay_factor)
            let traffic_delay_minutes :=
              max 0 ⌈((adjusted_seconds - base_eta_seconds : ℤ) : ℚ) / 60⌉
            (max 1 ⌈(adjusted_seconds : ℚ) / 60⌉, adjusted_seconds,
              some traffic_condition, some traffic_delay_minutes)
          else (base_eta_minutes, base_eta_seconds, some traffic_condition, none)
        else (base_eta_minutes, base_eta_seconds, some "unknown", none)
  else (base_eta_minutes, base_eta_seconds, none, none)

/-- The buffer minute count of `maps.py` lines 177-179:
`ETA_BUFFER_MINUTES`, plus `ETA_HEAVY_BUFFER_MINUTES` when the condition is
heavy or severe. -/
def bufferMinutes (s : Settings) (traffic_condition : Option String) : ℤ :=
  s.ETA_BUFFER_MINUTES +
    (if traffic_condition = some "heavy" ∨ traffic_condition = some "severe"
      then s.ETA_HEAVY_BUFFER_MINUTES else 0)

/-- Fixed-buffer step (`maps.py` lines 176-182): the configured buffer,
plus the heavy/severe extra, is added only when positive. -/
def applyBuffer (s : Settings) (traffic_condition : Option String)
    (eta_minutes eta_seconds : ℤ) : ℤ × ℤ :=
  if 0 < bufferMinutes s traffic_condition then
    (eta_minutes + bufferMinutes s traffic_condition,
      eta_seconds + bufferMinutes s traffic_condition * 60)
  else (eta_minutes, eta_seconds)

/-- Geometry selection (`maps.py` lines 184-186): the primary's geometry if
not `None`, else the secondary's. -/
def chooseGeometry (gomap osrm : Option Route) : Option (List (ℚ × ℚ)) :=
  let gomap_geometry := gomap.bind Route.geometry
  let osrm_geometry := osrm.bind Route.geometry
  if gomap_geometry.isSome then gomap_geometry else osrm_geometry

/-- `route_summary` selection (`maps.py` line 195). -/
def chooseSummary (gomap osrm : Option Route) : Option String :=
  match gomap with
  | some g => g.notice
  | none =>
      match osrm with
      | some o => o.notice
      | none => none

/-- `compute_eta_with_traffic` (`backend/app/maps.py` lines 53-199), with
the two provider fetch results, the haversine baseline between the
endpoints and the traffic snapshot fetch outcome supplied as inputs. -/
def compute_eta_with_traffic (s : Settings) (gomap osrm : Option Route)
    (haversine_km : ℚ)
    (trafficFetch : Option (Option GoMapTraffic × Option GoMapTraffic)) :
    Option EtaComputation :=
  if gomap = none ∧ osrm = none then none
  else
    let pb := pickBase s gomap osrm haversine_km
    let distance_km := chooseDistance pb.1 osrm
    match chooseDuration pb.1 gomap osrm with
    | none => none
    | some duration_seconds =>
        let base_eta_seconds := max 1 duration_seconds
        let base_eta_minutes := max 1 ⌈(base_eta_seconds : ℚ) / 60⌉
        let t := applyTraffic s (s.GOMAP_TRAFFIC_ENABLED && gomap.isSome)
          trafficFetch base_eta_minutes base_eta_seconds
        let b := applyBuffer s t.2.2.1 t.1 t.2.1
        some { eta_minutes := b.1
               eta_seconds := b.2
               route_distance_km := distance_km
               typical_eta_minutes := some base_eta_minutes
               traffic_condition := t.2.2.1
               traffic_delay_minutes := t.2.2.2
               route_summary := chooseSummary gomap osrm
               route_geometry := chooseGeometry gomap osrm
               provider := pb.2.1
               calibration_note := pb.2.2 }

/-- `build_fallback_eta` (`backend/app/maps.py` lines 202-209). -/
def build_fallback_eta (distance_km : ℚ) (fallback_minutes : ℤ) : EtaComputation :=
  { eta_minutes := fallback_minutes
    eta_seconds := max 1 (fallback_minutes * 60)
    route_distance_km := some (pyRound2 distance_km)
    provider := "fallback" }

/-! ### Retry executor (`backend/app/gomap.py`, `_post_with_retry`) -/

/-- Outcome of one breaker-gated call to `with_circuit_breaker(_post_internal, ...)`
(`gomap.py` lines 143-148): a response, the distinct `CircuitOpenError`
raised by the breaker (module `circuit_breaker`, imported at `gomap.py`
line 20), or any other exception (`failure`, carrying an error id). -/
inductive CallResult (α : Type) where
  | success (v : α)
  | circuitOpen
  | failure (err : ℕ)
deriving DecidableEq, Repr

/-- Result of the whole retry loop: a response, the propagated
`CircuitOpenError`, or `raise last_error` after all attempts failed. -/
inductive RetryResult (α : Type) where
  | success (v : α)
  | circuitOpenError
  | raised (last_error : Option ℕ)
deriving DecidableEq, Repr

/-- The loop body of `_post_with_retry` (`gomap.py` lines 131-164),
structurally recursive on the remaining attempts.  `calls i` is the outcome
of the breaker-gated call on attempt index `i`; the result triple is
`(outcome, attempts actually performed, total backoff time slept)`. -/
def retryFrom (α : Type) (calls : ℕ → CallResult α) (backoff : ℚ)
    (attempt : ℕ) (remaining : ℕ) (slept : ℚ) (last_error : Option ℕ) :
    RetryResult α × ℕ × ℚ :=
  match remaining with
  | 0 => (.raised last_error, attempt, slept)
  | r + 1 =>
      let slept' := if 0 < attempt then slept + backoff * 2 ^ (attempt - 1) else slept
      match calls attempt with
      | .success v => (.success v, attempt + 1, slept')
      | .circuitOpen => (.circuitOpenError, attempt + 1, slept')
      | .failure e => retryFrom α calls backoff (attempt + 1) r slept' (some e)

/-- `_post_with_retry` (`backend/app/gomap.py` lines 124-164): runs
`settings.GOMAP_RETRY_ATTEMPTS + 1` attempts, sleeping
`backoff * 2^(attempt-1)` before every attempt after the first.  A
`CircuitOpenError` is re-raised immediately; any other exception is
remembered and, once attempts are exhausted, `raise last_error`. -/
def post_with_retry (α : Type) (s : Settings) (calls : ℕ → CallResult α) :
    RetryResult α × ℕ × ℚ :=
  retryFrom α calls s.GOMAP_RETRY_BACKOFF_SECONDS 0 (s.GOMAP_RETRY_ATTEMPTS + 1) 0 none

/-- Total backoff slept by attempts `1..k` (attempt `i` sleeps
`backoff * 2^(i-1)`). -/
def sleepBefore (backoff : ℚ) (k : ℕ) : ℚ :=
  (Finset.range k).sum (fun i => backoff * 2 ^ i)

/-! ### Duration normalization (`backend/app/gomap.py`, `_normalize_duration_seconds`) -/

/-- Abstraction of what `_normalize_duration_seconds` observes about a raw
string value (`gomap.py` lines 639-662): whether it contains `"_"` and, if
so, whether `float(hours_str)`/`float(minutes_str)` of the split both parse
(`underscoreParse`); the numbers captured by the `(\d+)\s*(?:dəq|min)` and
`(\d+)\s*(?:s|san)` regexes; the number found by `_extract_number`; and the
value of `float(stripped string)` if it parses (`coerceFloat`, NaN
excluded by `_coerce_float`). -/
structure StrFacts where
  hasUnderscore : Bool
  underscoreParse : Option (ℚ × ℚ)
  minuteMatch : Option ℕ
  secondMatch : Option ℕ
  extractedNumber : Option ℚ
  coerceFloat : Option ℚ
deriving DecidableEq, Repr

/-- The raw duration value passed to `_normalize_duration_seconds`:
`None`, a number, or a string (represented by the facts the function
observes about it). -/
inductive RawDuration where
  | vnone
  | vnum (q : ℚ)
  | vstr (f : StrFacts)
deriving DecidableEq, Repr

/-- The shared numeric tail of `_normalize_duration_seconds`
(`gomap.py` lines 664-668): values above 200 are treated as seconds
already, otherwise as minutes; the result is clamped to at least 1. -/
def finishDuration (duration : ℚ) : Option ℤ :=
  if 200 < duration then some (max 1 (pyRound duration))
  else some (max 1 (pyRound (duration * 60)))

/-- The post-underscore part of the string branch (`gomap.py` lines
647-661): minute/second regex extraction, then `_extract_number`, then a
plain float coercion of the string itself. -/
def strTail (f : StrFacts) : Option ℤ :=
  let total_seconds : ℕ := (f.minuteMatch.getD 0) * 60 + f.secondMatch.getD 0
  if 0 < total_seconds then some (total_seconds : ℤ)
  else
    match f.extractedNumber with
    | some q => finishDuration q
    | none =>
        match f.coerceFloat with
        | some q => finishDuration q
        | none => none

/-- `_normalize_duration_seconds` (`backend/app/gomap.py` lines 635-668). -/
def normalize_duration_seconds : RawDuration → Option ℤ
  | .vnone => none
  | .vnum q => finishDuration q
  | .vstr f =>
      if f.hasUnderscore then
        match f.underscoreParse with
        | some (hours, minutes) => some (max 1 (pyRound (hours * 3600 + minutes * 60)))
        | none => strTail f
      else strTail f

/-! ### Input-validation guards (`backend/app/gomap.py`) -/

/-- Either an early synchronous return value, or control reaching the
cache/network section of the function. -/
inductive GuardOutcome (α : Type) where
  | immediate (v : α)
  | proceeds
deriving DecidableEq, Repr

/-- The pre-network prefix of `search_objects_with_distance`
(`backend/app/gomap.py` lines 263-273): provider disabled, blank query and
out-of-range origin coordinates all return `[]` before the cache lookup and
the HTTP request.  `α` is the row type of the result list. -/
def search_objects_with_distance_guard (α : Type) (enabled : Bool)
    (term : String) (origin_lat origin_lon : ℚ) (limit : ℤ) :
    GuardOutcome (List α) :=
  if !enabled then .immediate []
  else
    let query := term.trim
    if query = "" then .immediate []
    else
      let _limit := max 1 (min limit 50)
      if ¬(-90 ≤ origin_lat ∧ origin_lat ≤ 90) ∨ ¬(-180 ≤ origin_lon ∧ origin_lon ≤ 180) then
        .immediate []
      else .proceeds

/-- The pre-network prefix of `route_directions_by_type`
(`backend/app/gomap.py` lines 807-816): provider disabled and out-of-range
origin or destination coordinates all return `None` before any HTTP
request. -/
def route_directions_by_type_guard (enabled : Bool)
    (origin_lat origin_lon dest_lat dest_lon : ℚ) : GuardOutcome (Option Route) :=
  if !enabled then .immediate none
  else if ¬(-90 ≤ origin_lat ∧ origin_lat ≤ 90) ∨ ¬(-180 ≤ origin_lon ∧ origin_lon ≤ 180) then
    .immediate none
  else if ¬(-90 ≤ dest_lat ∧ dest_lat ≤ 90) ∨ ¬(-180 ≤ dest_lon ∧ dest_lon ≤ 180) then
    .immediate none
  else .proceeds

/-! ### Derived definitions used by the statements below -/

/-- The duration the pipeline ends up basing the ETA on: the reconciled
base route's duration run through the selection chain of `maps.py` lines
111-115. -/
def baseDuration (s : Settings) (gomap osrm : Option Route) (haversine_km : ℚ) : Option ℤ :=
  chooseDuration (pickBase s gomap osrm haversine_km).1 gomap osrm

/-- "Traffic is disabled or yielded no severity signal": the traffic block
is skipped (`GOMAP_TRAFFIC_ENABLED` false or no primary route), the
snapshot fetch raised, or the worse severity of the two snapshots is not
positive. -/
def noTrafficSignal (doTraffic : Bool)
    (trafficFetch : Option (Option GoMapTraffic × Option GoMapTraffic)) : Prop :=
  doTraffic = false ∨ trafficFetch = none ∨
    ∃ p, trafficFetch = some p ∧ maxSeverity p.1 p.2 ≤ 0

/-- The traffic stage as invoked by the pipeline on a base duration `d`:
`base_eta_seconds = max 1 d`, `base_eta_minutes = max 1 ⌈base/60⌉`
(`maps.py` lines 119-121). -/
def trafficStage (s : Settings) (gomap : Option Route)
    (trafficFetch : Option (Option GoMapTraffic × Option GoMapTraffic))
    (d : ℤ) : ℤ × ℤ × Option String × Option ℤ :=
  applyTraffic s (s.GOMAP_TRAFFIC_ENABLED && gomap.isSome) trafficFetch
    (max 1 ⌈((max 1 d : ℤ) : ℚ) / 60⌉) (max 1 d)

/-- The record `compute_eta_with_traffic` returns once a base duration `d`
has been selected (`maps.py` lines 119-199). -/
def assembleEta (s : Settings) (gomap osrm : Option Route) (haversine_km : ℚ)
    (trafficFetch : Option (Option GoMapTraffic × Option GoMapTraffic))
    (d : ℤ) : EtaComputation :=
  let t := trafficStage s gomap trafficFetch d
  let b := applyBuffer s t.2.2.1 t.1 t.2.1
  { eta_minutes := b.1
    eta_seconds := b.2
    route_distance_km := chooseDistance (pickBase s gomap osrm haversine_km).1 osrm
    typical_eta_minutes := some (max 1 ⌈((max 1 d : ℤ) : ℚ) / 60⌉)
    traffic_condition := t.2.2.1
    traffic_delay_minutes := t.2.2.2
    route_summary := chooseSummary gomap osrm
    route_geometry := chooseGeometry gomap osrm
    provider := (pickBase s gomap osrm haversine_km).2.1
    calibration_note := (pickBase s gomap osrm haversine_km).2.2 }

/-! ## Helper lemmas -/

theorem pyInt_of_nonneg (q : ℚ) (h : 0 ≤ q) : pyInt q = ⌊q⌋ := by
  simp [pyInt, h]

/-- Truncating `b * f` with `b ≥ 0` and `f ≥ 1` never drops below `b`. -/
theorem le_pyInt_mul (b : ℤ) (f : ℚ) (hb : 0 ≤ b) (hf : 1 ≤ f) :
    b ≤ pyInt ((b : ℚ) * f) := by
  have hb' : (0 : ℚ) ≤ (b : ℚ) := by exact_mod_cast hb
  have hbf : (b : ℚ) ≤ (b : ℚ) * f := le_mul_of_one_le_right hb' hf
  rw [pyInt_of_nonneg _ (le_trans hb' hbf)]
  exact Int.le_floor.mpr hbf

/-- The traffic adjustment never reduces the second count. -/
theorem applyTraffic_seconds_ge (s : Settings) (doT : Bool)
    (tf : Option (Option GoMapTraffic × Option GoMapTraffic))
    (bm bs : ℤ) (hbs : 0 ≤ bs) :
    bs ≤ (applyTraffic s doT tf bm bs).2.1 := by
  cases doT with
  | false => simp [applyTraffic]
  | true =>
      cases tf with
      | none => simp [applyTraffic]
      | some p =>
          obtain ⟨ot, dt⟩ := p
          by_cases hsev : 0 < maxSeverity ot dt
          · by_cases hf : 1 < delayFactorFor s.TRAFFIC_DELAY_FACTORS
                (severityCondition (maxSeverity ot dt))
            · simp only [applyTraffic, if_pos hsev, if_pos hf]
              exact le_pyInt_mul bs _ hbs (le_of_lt hf)
            · simp [applyTraffic, hsev, hf]
          · simp [applyTraffic, hsev]

/-- The traffic adjustment never reduces the minute count, provided the
minute count is the rounded-up form the pipeline feeds it. -/
theorem applyTraffic_minutes_ge (s : Settings) (doT : Bool)
    (tf : Option (Option GoMapTraffic × Option GoMapTraffic))
    (bs : ℤ) (hbs : 0 ≤ bs) :
    max 1 ⌈(bs : ℚ) / 60⌉ ≤ (applyTraffic s doT tf (max 1 ⌈(bs : ℚ) / 60⌉) bs).1 := by
  cases doT with
  | false => simp [applyTraffic]
  | true =>
      cases tf with
      | none => simp [applyTraffic]
      | some p =>
          obtain ⟨ot, dt⟩ := p
          by_cases hsev : 0 < maxSeverity ot dt
          · by_cases hf : 1 < delayFactorFor s.TRAFFIC_DELAY_FACTORS
                (severityCondition (maxSeverity ot dt))
            · simp only [applyTraffic, if_pos hsev, if_pos hf]
              have hadj : bs ≤ pyInt ((bs : ℚ) *
                  delayFactorFor s.TRAFFIC_DELAY_FACTORS
                    (severityCondition (maxSeverity ot dt))) :=
                le_pyInt_mul bs _ hbs (le_of_lt hf)
              have hceil : ⌈(bs : ℚ) / 60⌉ ≤
                  ⌈(pyInt ((bs : ℚ) * delayFactorFor s.TRAFFIC_DELAY_FACTORS
                      (severityCondition (maxSeverity ot dt))) : ℚ) / 60⌉ := by
                apply Int.ceil_le_ceil
                apply div_le_div_of_nonneg_right _ (by norm_num)
                exact_mod_cast hadj
              exact max_le_max le_rfl hceil
            · simp [applyTraffic, hsev, hf]
          · simp [applyTraffic, hsev]

/-- The fixed buffer is only ever added, never subtracted. -/
theorem applyBuffer_ge (s : Settings) (cond : Option String) (m sec : ℤ) :
    m ≤ (applyBuffer s cond m sec).1 ∧ sec ≤ (applyBuffer s cond m sec).2 := by
  by_cases hb : 0 < bufferMinutes s cond
  · simp only [applyBuffer, if_pos hb]
    exact ⟨by omega, by omega⟩
  · simp [applyBuffer, hb]

/-- With no severity signal the traffic step leaves the base ETA untouched
and reports either no condition or `"unknown"`. -/
theorem applyTraffic_noSignal (s : Settings) (doT : Bool)
    (tf : Option (Option GoMapTraffic × Option GoMapTraffic))
    (bm bs : ℤ) (h : noTrafficSignal doT tf) :
    (applyTraffic s doT tf bm bs).1 = bm ∧
    (applyTraffic s doT tf bm bs).2.1 = bs ∧
    ((applyTraffic s doT tf bm bs).2.2.1 = none ∨
      (applyTraffic s doT tf bm bs).2.2.1 = some "unknown") ∧
    (applyTraffic s doT tf bm bs).2.2.2 = none := by
  rcases h with h | h | ⟨p, hp, hsev⟩
  · subst h; simp [applyTraffic]
  · subst h
    cases doT <;> simp [applyTraffic]
  · subst hp
    obtain ⟨ot, dt⟩ := p
    dsimp only at hsev
    cases doT with
    | false => simp [applyTraffic]
    | true =>
        have hsev' : ¬ 0 < maxSeverity ot dt := by omega
        simp [applyTraffic, hsev']

/-- When no base duration can be selected the pipeline returns `None`. -/
theorem compute_eta_none_of_noDuration (s : Settings) (gomap osrm : Option Route)
    (hkm : ℚ) (tf : Option (Option GoMapTraffic × Option GoMapTraffic))
    (hd : baseDuration s gomap osrm hkm = none) :
    compute_eta_with_traffic s gomap osrm hkm tf = none := by
  by_cases hne : gomap = none ∧ osrm = none
  · simp [compute_eta_with_traffic, hne]
  · simp only [compute_eta_with_traffic, if_neg hne]
    rw [show chooseDuration (pickBase s gomap osrm hkm).1 gomap osrm = none from hd]

/-- Unfolding of `compute_eta_with_traffic` once a base duration exists. -/
theorem compute_eta_eq (s : Settings) (gomap osrm : Option Route)
    (hkm : ℚ) (tf : Option (Option GoMapTraffic × Option GoMapTraffic)) (d : ℤ)
    (hd : baseDuration s gomap osrm hkm = some d)
    (hne : ¬(gomap = none ∧ osrm = none)) :
    compute_eta_with_traffic s gomap osrm hkm tf =
      some (assembleEta s gomap osrm hkm tf d) := by
  simp only [compute_eta_with_traffic, if_neg hne]
  rw [show chooseDuration (pickBase s gomap osrm hkm).1 gomap osrm = some d from hd]
  rfl

/-- A `baseDuration` cannot be selected when both providers are absent. -/
theorem baseDuration_both_none (s : Settings) (hkm : ℚ) :
    baseDuration s none none hkm = none := by
  simp [baseDuration, pickBase, chooseDuration]

/-- Propagating a pointwise implication through `Option.all`. -/
theorem option_all_imp (o : Option EtaComputation) (p q : EtaComputation → Bool)
    (h : ∀ a, p a = true → q a = true) (hp : o.all p = true) : o.all q = true := by
  cases o with
  | none => rfl
  | some a => exact h a hp

/-- The provider tag, calibration note, distance, summary and geometry of
any returned `EtaComputation` are exactly the reconciler's and the static
selectors' outputs. -/
theorem compute_static_fields (s : Settings) (gomap osrm : Option Route)
    (hkm : ℚ) (tf : Option (Option GoMapTraffic × Option GoMapTraffic)) :
    ((compute_eta_with_traffic s gomap osrm hkm tf).all
      (fun e => e.provider == (pickBase s gomap osrm hkm).2.1 &&
        e.calibration_note == (pickBase s gomap osrm hkm).2.2 &&
        e.route_distance_km == chooseDistance (pickBase s gomap osrm hkm).1 osrm &&
        e.route_summary == chooseSummary gomap osrm &&
        e.route_geometry == chooseGeometry gomap osrm)) = true := by
  rcases hd : baseDuration s gomap osrm hkm with _ | d
  · rw [compute_eta_none_of_noDuration s gomap osrm hkm tf hd]; rfl
  · by_cases hne : gomap = none ∧ osrm = none
    · obtain ⟨h1, h2⟩ := hne
      subst h1; subst h2
      rw [baseDuration_both_none] at hd
      exact absurd hd (by simp)
    · rw [compute_eta_eq s gomap osrm hkm tf d hd hne]
      simp [Option.all, assembleEta]

/-- Ceiling as a negated floor, letting `norm_num` evaluate ceilings of
concrete rationals. -/
theorem ceil_eq_neg_floor (q : ℚ) : ⌈q⌉ = -⌊-q⌋ := by
  rw [Int.floor_neg]
  ring

/-- `pyRound` never rounds below the floor. -/
theorem floor_le_pyRound (q : ℚ) : ⌊q⌋ ≤ pyRound q := by
  unfold pyRound
  split
  · exact le_refl _
  · split
    · omega
    · split <;> omega

/-- The rounded mean of two durations that are at least 1 is at least 1. -/
theorem one_le_avgDuration (a b : ℤ) (ha : 1 ≤ a) (hb : 1 ≤ b) :
    1 ≤ avgDuration a b := by
  have h1 : (1 : ℚ) ≤ ((a + b : ℤ) : ℚ) / 2 := by
    rw [le_div_iff₀ (by norm_num : (0 : ℚ) < 2)]
    push_cast
    have ha' : (1 : ℚ) ≤ (a : ℚ) := by exact_mod_cast ha
    have hb' : (1 : ℚ) ≤ (b : ℚ) := by exact_mod_cast hb
    linarith
  have h2 : (1 : ℤ) ≤ ⌊((a + b : ℤ) : ℚ) / 2⌋ := Int.le_floor.mpr (by exact_mod_cast h1)
  exact le_trans h2 (floor_le_pyRound _)

/-- `base_eta_minutes` counts whole minutes rounded up, so converting it
back to seconds overshoots the base by at most 59. -/
theorem sixty_mul_baseMinutes_le (bs : ℤ) (h : 1 ≤ bs) :
    60 * max 1 ⌈(bs : ℚ) / 60⌉ - 59 ≤ bs := by
  have hpos : (0 : ℚ) < (bs : ℚ) / 60 := by
    have h0 : (0 : ℚ) < (bs : ℚ) := by exact_mod_cast (by omega : (0 : ℤ) < bs)
    positivity
  have h1 : (1 : ℤ) ≤ ⌈(bs : ℚ) / 60⌉ := Int.ceil_pos.mpr hpos
  rw [max_eq_right h1]
  have h2 : (⌈(bs : ℚ) / 60⌉ : ℚ) < (bs : ℚ) / 60 + 1 := Int.ceil_lt_add_one _
  have h3 : 60 * (⌈(bs : ℚ) / 60⌉ : ℚ) < (bs : ℚ) + 60 := by
    have h4 := mul_lt_mul_of_pos_left h2 (by norm_num : (0 : ℚ) < 60)
    calc 60 * (⌈(bs : ℚ) / 60⌉ : ℚ) < 60 * ((bs : ℚ) / 60 + 1) := h4
      _ = (bs : ℚ) + 60 := by ring
  have h5 : 60 * ⌈(bs : ℚ) / 60⌉ < bs + 60 := by exact_mod_cast h3
  omega

/-- Reconciliation when the primary is implausibly far from the haversine
baseline and the secondary is not (`maps.py` lines 87-90). -/
theorem pickBase_primary_far (s : Settings) (g o : Route) (gd od hkm : ℚ)
    (hg : g.distance_km = some gd) (hgd : gd ≠ 0)
    (ho : o.distance_km = some od) (hod : od ≠ 0)
    (hfar : isFar s (distance_error hkm (some gd)) = true)
    (hnear : isFar s (distance_error hkm (some od)) = false) :
    pickBase s (some g) (some o) hkm =
      (some o, "osrm", some "calibrated via OSRM (GoMap distance high)") := by
  simp [pickBase, hg, ho, hgd, hod, hfar, hnear]

/-- Reconciliation in the agreement case (`maps.py` lines 95-104): neither
override triggers and both durations are truthy, so the primary wins with
the averaged duration. -/
theorem pickBase_agree (s : Settings) (g o : Route) (gd od hkm : ℚ) (gdur odur : ℤ)
    (hg : g.distance_km = some gd) (hgd : gd ≠ 0)
    (ho : o.distance_km = some od) (hod : od ≠ 0)
    (hgdur : g.duration_seconds = some gdur) (hgdur0 : gdur ≠ 0)
    (hodur : o.duration_seconds = some odur) (hodur0 : odur ≠ 0)
    (hn3 : (isFar s (distance_error hkm (some gd)) &&
      !(isFar s (distance_error hkm (some od)))) = false)
    (hn4 : ¬(s.MAP_DISTANCE_TOLERANCE < |gd - od| / max od (1/1000) ∧ od < gd)) :
    pickBase s (some g) (some o) hkm =
      (some { distance_km := some gd, duration_seconds := some (avgDuration gdur odur),
              geometry := g.geometry, notice := g.notice }, "gomap", none) := by
  simp only [pickBase, Option.some_bind, hg, ho]
  simp [hgd, hod, hgdur, hodur, hgdur0, hodur0, hn3]
  intro h
  by_contra hlt
  exact hn4 ⟨by simpa using h, lt_of_not_le hlt⟩

/-- Unrolling `sleepBefore` by one attempt. -/
theorem sleepBefore_succ (b : ℚ) (n : ℕ) :
    sleepBefore b (n + 1) = sleepBefore b n + b * 2 ^ n := by
  simp [sleepBefore, Finset.sum_range_succ]

/-- Behaviour of the retry loop from attempt `n + 1` onwards: `k` further
failures followed by an open circuit stop the loop right there, having
slept exactly the backoffs of attempts `n + 1 .. n + 1 + k`. -/
theorem retryFrom_open_from_succ (α : Type) (calls : ℕ → CallResult α) (b : ℚ) :
    ∀ (k n r : ℕ) (slept : ℚ) (last : Option ℕ), k < r →
      (∀ j, j < k → ∃ e, calls (n + 1 + j) = .failure e) →
      calls (n + 1 + k) = .circuitOpen →
      retryFrom α calls b (n + 1) r slept last =
        (.circuitOpenError, n + 1 + k + 1,
          slept + (sleepBefore b (n + 1 + k) - sleepBefore b n)) := by
  intro k
  induction k with
  | zero =>
      intro n r slept last hr hfail hopen
      obtain ⟨r', rfl⟩ : ∃ r', r = r' + 1 := ⟨r - 1, by omega⟩
      rw [Nat.add_zero] at hopen
      simp only [retryFrom, hopen, Nat.add_zero]
      rw [if_pos (by omega : 0 < n + 1)]
      have hsb : sleepBefore b (n + 1) - sleepBefore b n = b * 2 ^ n := by
        rw [sleepBefore_succ]; ring
      rw [hsb, Nat.add_sub_cancel]
  | succ k ih =>
      intro n r slept last hr hfail hopen
      obtain ⟨r', rfl⟩ : ∃ r', r = r' + 1 := ⟨r - 1, by omega⟩
      obtain ⟨e0, he0⟩ := hfail 0 (Nat.succ_pos k)
      rw [Nat.add_zero] at he0
      simp only [retryFrom, he0]
      rw [if_pos (by omega : 0 < n + 1)]
      have ih' := ih (n + 1) r' (slept + b * 2 ^ (n + 1 - 1)) (some e0) (by omega)
        (fun j hj => by
          obtain ⟨e, he⟩ := hfail (j + 1) (by omega)
          exact ⟨e, by rw [show n + 1 + 1 + j = n + 1 + (j + 1) by omega]; exact he⟩)
        (by rw [show n + 1 + 1 + k = n + 1 + (k + 1) by omega]; exact hopen)
      rw [ih']
      rw [show n + 1 + 1 + k = n + 1 + (k + 1) by omega]
      have hsb : sleepBefore b (n + 1) = sleepBefore b n + b * 2 ^ n := sleepBefore_succ b n
      rw [Nat.add_sub_cancel]
      refine Prod.ext rfl (Prod.ext rfl ?_)
      simp only
      rw [hsb]
      ring

/-! ## Claim theorems -/

/-- C2 counterexample: a primary route with distance 0.0 km has relative
deviation 1 from the 10 km haversine baseline (far above the 0.35
tolerance) while the secondary (10.2 km, deviation 0.02) is near — the
claim's antecedent holds — yet the truthiness guard at `maps.py` line 82
(`gomap.distance_km and osrm.distance_km`, and 0.0 is falsy) skips the
override: the pipeline keeps `provider = "gomap"` with a null calibration
note. -/
theorem eta_primary_zero_distance_cex :
    distance_error 10 (some 0) = some 1 ∧
    defaultSettings.MAP_HAVERSINE_TOLERANCE < 1 ∧
    distance_error 10 (some (51/5)) = some (1/50) ∧
    ¬(defaultSettings.MAP_HAVERSINE_TOLERANCE < (1/50 : ℚ)) ∧
    (compute_eta_with_traffic defaultSettings (some ⟨some 0, some 600, none, none⟩)
        (some ⟨some (51/5), some 620, none, none⟩) 10 (some (none, none))).map
      (fun e => (e.provider, e.calibration_note)) = some ("gomap", none) := by
  refine ⟨by norm_num [distance_error, abs], by norm_num [defaultSettings],
    by norm_num [distance_error, abs], by norm_num [defaultSettings], ?_⟩
  simp [compute_eta_with_traffic, pickBase, distance_error, isFar, chooseDistance,
    chooseDuration, chooseGeometry, chooseSummary, applyTraffic, applyBuffer, bufferMinutes,
    maxSeverity, severityCondition, delayFactorFor, avgDuration, pyInt, pyRound,
    defaultSettings, ceil_eq_neg_floor, abs]

/-- C2 (amended): if both providers returned routes with nonzero (truthy)
distances and the primary's relative deviation from the haversine baseline
exceeds `MAP_HAVERSINE_TOLERANCE` while the secondary's does not, the
reconciler selects the secondary as the base route, and any returned
`EtaComputation` carries `provider = "osrm"` and a non-null calibration
note.  (A 0.0 km distance is falsy at `maps.py` line 82 and skips
reconciliation entirely — see the counterexample.) -/
theorem eta_selects_secondary_when_primary_implausible
    (s : Settings) (g o : Route) (gd od hkm : ℚ)
    (tf : Option (Option GoMapTraffic × Option GoMapTraffic))
    (hg : g.distance_km = some gd) (hgd : gd ≠ 0)
    (ho : o.distance_km = some od) (hod : od ≠ 0)
    (hfar : isFar s (distance_error hkm (some gd)) = true)
    (hnear : isFar s (distance_error hkm (some od)) = false) :
    (pickBase s (some g) (some o) hkm).1 = some o ∧
    ((compute_eta_with_traffic s (some g) (some o) hkm tf).all
      (fun e => e.provider == "osrm" && e.calibration_note.isSome)) = true := by
  have hpb := pickBase_primary_far s g o gd od hkm hg hgd ho hod hfar hnear
  refine ⟨by rw [hpb], ?_⟩
  refine option_all_imp _ _ _ ?_ (compute_static_fields s (some g) (some o) hkm tf)
  intro e he
  rw [hpb] at he
  simp only [Bool.and_eq_true, beq_iff_eq] at he
  obtain ⟨⟨⟨⟨hp, hn⟩, _⟩, _⟩, _⟩ := he
  simp [hp, hn]

/-- C2 witness: the spec's tie-break example (haversine 10 km, primary
15 km, secondary 10.2 km). -/
theorem eta_selects_secondary_when_primary_implausible_witness :
    (pickBase defaultSettings (some ⟨some 15, some 600, none, some "n"⟩)
        (some ⟨some (51/5), some 620, none, none⟩) 10).1 =
      some ⟨some (51/5), some 620, none, none⟩ ∧
    ((compute_eta_with_traffic defaultSettings (some ⟨some 15, some 600, none, some "n"⟩)
        (some ⟨some (51/5), some 620, none, none⟩) 10 (some (none, none))).all
      (fun e => e.provider == "osrm" && e.calibration_note.isSome)) = true :=
  eta_selects_secondary_when_primary_implausible defaultSettings
    ⟨some 15, some 600, none, some "n"⟩ ⟨some (51/5), some 620, none, none⟩
    15 (51/5) 10 (some (none, none)) rfl (by norm_num) rfl (by norm_num)
    (by norm_num [isFar, distance_error, defaultSettings, abs])
    (by norm_num [isFar, distance_error, defaultSettings, abs])

/-- C3 (amended): in the agreement case — both distances nonzero (truthy),
both durations nonzero (truthy), neither override condition triggers — the
primary wins: the base duration is the rounded mean of the two durations,
and the returned record carries the primary tag, the primary's distance
and notice, no calibration note, and the primary's geometry when the
primary has one (otherwise the secondary's).  (A 0.0 km distance is falsy
at `maps.py` line 82 and skips the averaging block — see the
counterexample.) -/
theorem eta_agreement_prefers_primary_average
    (s : Settings) (g o : Route) (gd od hkm : ℚ) (gdur odur : ℤ)
    (tf : Option (Option GoMapTraffic × Option GoMapTraffic))
    (hg : g.distance_km = some gd) (hgd : gd ≠ 0)
    (ho : o.distance_km = some od) (hod : od ≠ 0)
    (hgdur : g.duration_seconds = some gdur) (hgdur1 : 1 ≤ gdur)
    (hodur : o.duration_seconds = some odur) (hodur1 : 1 ≤ odur)
    (hn3 : (isFar s (distance_error hkm (some gd)) &&
      !(isFar s (distance_error hkm (some od)))) = false)
    (hn4 : ¬(s.MAP_DISTANCE_TOLERANCE < |gd - od| / max od (1/1000) ∧ od < gd)) :
    (pickBase s (some g) (some o) hkm).2.1 = "gomap" ∧
    baseDuration s (some g) (some o) hkm = some (avgDuration gdur odur) ∧
    ((compute_eta_with_traffic s (some g) (some o) hkm tf).all
      (fun e => e.provider == "gomap" && e.route_distance_km == some gd &&
        e.route_summary == g.notice && e.calibration_note == none &&
        e.route_geometry ==
          (if g.geometry.isSome then g.geometry else o.geometry))) = true := by
  have hpb := pickBase_agree s g o gd od hkm gdur odur hg hgd ho hod
    hgdur (by omega) hodur (by omega) hn3 hn4
  have havg : 1 ≤ avgDuration gdur odur := one_le_avgDuration _ _ hgdur1 hodur1
  refine ⟨by rw [hpb], ?_, ?_⟩
  · unfold baseDuration
    rw [hpb]
    simp [chooseDuration, show avgDuration gdur odur ≠ 0 by omega]
  · refine option_all_imp _ _ _ ?_ (compute_static_fields s (some g) (some o) hkm tf)
    intro e he
    rw [hpb] at he
    simp only [Bool.and_eq_true, beq_iff_eq] at he
    obtain ⟨⟨⟨⟨hp, hn⟩, hdist⟩, hsum⟩, hgeo⟩ := he
    simp only [chooseDistance] at hdist
    simp only [chooseSummary] at hsum
    simp only [chooseGeometry, Option.some_bind] at hgeo
    simp [hp, hn, hdist, hsum, hgeo]

/-- C3 witness: the spec's end-to-end agreement scenario (primary
5.2 km/600 s with a notice, secondary 5.3 km/620 s with geometry,
haversine 1.3 km): the primary tag wins with the averaged duration 610 s
and no calibration note. -/
theorem eta_agreement_prefers_primary_average_witness :
    (pickBase defaultSettings (some ⟨some (26/5), some 600, none, some "Ideal"⟩)
        (some ⟨some (53/10), some 620, some [(1, 2)], none⟩) (13/10)).2.1 = "gomap" ∧
    baseDuration defaultSettings (some ⟨some (26/5), some 600, none, some "Ideal"⟩)
        (some ⟨some (53/10), some 620, some [(1, 2)], none⟩) (13/10) =
      some (avgDuration 600 620) ∧
    ((compute_eta_with_traffic defaultSettings
        (some ⟨some (26/5), some 600, none, some "Ideal"⟩)
        (some ⟨some (53/10), some 620, some [(1, 2)], none⟩) (13/10)
        (some (none, none))).all
      (fun e => e.provider == "gomap" && e.route_distance_km == some (26/5) &&
        e.route_summary == some "Ideal" && e.calibration_note == none &&
        e.route_geometry ==
          (if (none : Option (List (ℚ × ℚ))).isSome then none
            else some [(1, 2)]))) = true := by
  have h1 : isFar defaultSettings (distance_error (13/10) (some (26/5))) = true := by
    norm_num [isFar, distance_error, defaultSettings, abs]
  have h2 : isFar defaultSettings (distance_error (13/10) (some (53/10))) = true := by
    norm_num [isFar, distance_error, defaultSettings, abs]
  exact eta_agreement_prefers_primary_average defaultSettings
    ⟨some (26/5), some 600, none, some "Ideal"⟩
    ⟨some (53/10), some 620, some [(1, 2)], none⟩
    (26/5) (53/10) (13/10) 600 620 (some (none, none))
    rfl (by norm_num) rfl (by norm_num) rfl (by norm_num) rfl (by norm_num)
    (by rw [h1, h2]; rfl)
    (fun hc => absurd hc.2 (by norm_num))

/-- C3 counterexample, two failing inputs for the claim as frozen:
(1) in an agreement case where the primary has no geometry and the
secondary does (the end-to-end spec scenario's routes, secondary geometry
added), the returned geometry is the secondary's — not the primary's as
the claim states; (2) with a primary distance of 0.0 km (deviation 1 from
the 10 km baseline) and a secondary of 20 km (deviation 1), both providers
returned a route with a distance and a duration and neither step 3 (both
far) nor step 4 (secondary not shorter) triggers, yet the durations are
not averaged: the truthiness guard at `maps.py` line 82 skips the block
and the primary's raw 600 s is used instead of the 610 s mean. -/
theorem eta_agreement_cex :
    ((compute_eta_with_traffic defaultSettings
        (some ⟨some (26/5), some 600, none, some "Ideal"⟩)
        (some ⟨some (53/10), some 620, some [(1, 2)], none⟩) (13/10)
        (some (none, none))).map EtaComputation.route_geometry =
      some (some [(1, 2)]) ∧
    (Route.mk (some (26/5)) (some 600) none (some "Ideal")).geometry = none) ∧
    ((compute_eta_with_traffic defaultSettings (some ⟨some 0, some 600, none, none⟩)
        (some ⟨some 20, some 620, none, none⟩) 10 (some (none, none))).map
      (fun e => (e.eta_seconds, e.typical_eta_minutes)) = some (600, some 10) ∧
    avgDuration 600 620 = 610) := by
  refine ⟨⟨?_, rfl⟩, ?_, by norm_num [avgDuration, pyRound]⟩
  · simp [compute_eta_with_traffic, pickBase, distance_error, isFar, chooseDistance,
      chooseDuration, chooseGeometry, chooseSummary, applyTraffic, applyBuffer, bufferMinutes,
      maxSeverity, severityCondition, delayFactorFor, avgDuration, pyInt, pyRound,
      defaultSettings, Option.all, ceil_eq_neg_floor, abs]
    norm_num
  · simp [compute_eta_with_traffic, pickBase, distance_error, isFar, chooseDistance,
      chooseDuration, chooseGeometry, chooseSummary, applyTraffic, applyBuffer, bufferMinutes,
      maxSeverity, severityCondition, delayFactorFor, avgDuration, pyInt, pyRound,
      defaultSettings, Option.all, ceil_eq_neg_floor, abs]
    norm_num

/-- C4 (amended): with traffic on and a positive worse-severity, the
adjustment uses the configured multiplier for the mapped condition; when
the multiplier exceeds 1 the adjusted seconds are the Python `int`
truncation (not `round`) of `base × multiplier` and the delay is
`max 0 ⌈(adjusted − base)/60⌉`; when the multiplier is ≤ 1 the base ETA is
kept and the delay is left unset. -/
theorem traffic_adjustment_truncates (s : Settings) (ot dt : Option GoMapTraffic)
    (bm bs : ℤ) (hsev : 0 < maxSeverity ot dt) :
    (1 < delayFactorFor s.TRAFFIC_DELAY_FACTORS (severityCondition (maxSeverity ot dt)) →
      applyTraffic s true (some (ot, dt)) bm bs =
        (max 1 ⌈(pyInt ((bs : ℚ) * delayFactorFor s.TRAFFIC_DELAY_FACTORS
            (severityCondition (maxSeverity ot dt))) : ℚ) / 60⌉,
          pyInt ((bs : ℚ) * delayFactorFor s.TRAFFIC_DELAY_FACTORS
            (severityCondition (maxSeverity ot dt))),
          some (severityCondition (maxSeverity ot dt)),
          some (max 0 ⌈((pyInt ((bs : ℚ) * delayFactorFor s.TRAFFIC_DELAY_FACTORS
              (severityCondition (maxSeverity ot dt))) - bs : ℤ) : ℚ) / 60⌉))) ∧
    (¬ 1 < delayFactorFor s.TRAFFIC_DELAY_FACTORS (severityCondition (maxSeverity ot dt)) →
      applyTraffic s true (some (ot, dt)) bm bs =
        (bm, bs, some (severityCondition (maxSeverity ot dt)), none)) := by
  constructor <;> intro hf <;> simp [applyTraffic, hsev, hf]

/-- C4 witness: moderate severity (factor 1.12) on a 30 s base adjusts to
`int(30 × 1.12) = 33` seconds with a 1-minute delay. -/
theorem traffic_adjustment_truncates_witness :
    applyTraffic defaultSettings true
        (some (some ⟨some 2, none, none, none⟩, none)) 1 30 =
      (1, 33, some "moderate", some 1) := by
  rw [(traffic_adjustment_truncates defaultSettings
    (some ⟨some 2, none, none, none⟩) none 1 30
    (by norm_num [maxSeverity])).1
    (by simp [maxSeverity, severityCondition, delayFactorFor, defaultSettings]; norm_num)]
  simp [maxSeverity, severityCondition, delayFactorFor, defaultSettings,
    pyInt, pyRound, ceil_eq_neg_floor]
  norm_num

/-- C4 counterexample: on the same input the full pipeline returns
`eta_seconds = 33`, while the claim's `round(base × multiplier)` formula
gives 34. -/
theorem traffic_adjustment_round_cex :
    (compute_eta_with_traffic defaultSettings (some ⟨some 5, some 30, none, none⟩) none 5
        (some (some ⟨some 2, none, none, none⟩, none))).map EtaComputation.eta_seconds =
      some 33 ∧
    pyRound ((30 : ℚ) * (28/25)) = 34 ∧ (33 : ℤ) ≠ 34 := by
  refine ⟨?_, by norm_num [pyRound], by norm_num⟩
  simp [compute_eta_with_traffic, pickBase, distance_error, isFar, chooseDistance,
    chooseDuration, chooseGeometry, chooseSummary, applyTraffic, applyBuffer, bufferMinutes,
    maxSeverity, severityCondition, delayFactorFor, avgDuration, pyInt, pyRound,
    defaultSettings, Option.all, ceil_eq_neg_floor, abs]
  norm_num
  simp

/-- C5: if the breaker-gated call raises `CircuitOpenError` on attempt `k`
(after `k` ordinary failures), `_post_with_retry` stops right there: the
open-circuit error is the outcome, exactly `k + 1` calls were made, and the
total backoff slept is only what preceded the open attempt — no further
attempt and no further sleep happens after the open error. -/
theorem retry_circuit_open_immediate (α : Type) (s : Settings)
    (calls : ℕ → CallResult α) (k : ℕ)
    (hk : k ≤ s.GOMAP_RETRY_ATTEMPTS)
    (hfail : ∀ j, j < k → ∃ e, calls j = .failure e)
    (hopen : calls k = .circuitOpen) :
    post_with_retry α s calls =
      (.circuitOpenError, k + 1, sleepBefore s.GOMAP_RETRY_BACKOFF_SECONDS k) := by
  unfold post_with_retry
  cases k with
  | zero =>
      simp only [retryFrom, hopen]
      rw [if_neg (by omega : ¬ 0 < 0)]
      simp [sleepBefore]
  | succ n =>
      obtain ⟨e0, he0⟩ := hfail 0 (Nat.succ_pos n)
      simp only [retryFrom, he0]
      rw [if_neg (by omega : ¬ 0 < 0)]
      have h := retryFrom_open_from_succ α calls s.GOMAP_RETRY_BACKOFF_SECONDS n 0
        s.GOMAP_RETRY_ATTEMPTS 0 (some e0) (by omega)
        (fun j hj => by
          obtain ⟨e, he⟩ := hfail (j + 1) (by omega)
          refine ⟨e, ?_⟩
          rw [show 0 + 1 + j = j + 1 by omega]
          exact he)
        (by rw [show 0 + 1 + n = n + 1 by omega]; exact hopen)
      rw [h]
      rw [show 0 + 1 + n = n + 1 by omega]
      have hsb0 : sleepBefore s.GOMAP_RETRY_BACKOFF_SECONDS 0 = 0 := by
        simp [sleepBefore]
      rw [hsb0]
      refine Prod.ext rfl (Prod.ext rfl ?_)
      simp only
      ring

/-- C5 witness: one ordinary failure, then an open circuit on the second
attempt, with the default two-retry settings: the loop stops after two
calls having slept only the single 1-second backoff. -/
theorem retry_circuit_open_immediate_witness :
    post_with_retry ℕ defaultSettings
        (fun i => if i = 0 then CallResult.failure 7 else CallResult.circuitOpen) =
      (RetryResult.circuitOpenError, 2,
        sleepBefore defaultSettings.GOMAP_RETRY_BACKOFF_SECONDS 1) :=
  retry_circuit_open_immediate ℕ defaultSettings
    (fun i => if i = 0 then CallResult.failure 7 else CallResult.circuitOpen) 1
    (by norm_num [defaultSettings])
    (fun j hj => ⟨7, by simp [Nat.lt_one_iff.mp hj]⟩)
    (by simp)

/-- Concrete evaluation shared by several witnesses: a single primary
route of 30 s and 5 km, traffic fetch succeeding with no snapshots. -/
theorem exBasicScenario_eq :
    compute_eta_with_traffic defaultSettings (some ⟨some 5, some 30, none, none⟩) none 5
        (some (none, none)) =
      some ⟨1, 30, some 5, some 1, some "unknown", none, "gomap", none, none, none⟩ := by
  simp [compute_eta_with_traffic, pickBase, distance_error, isFar, chooseDistance,
    chooseDuration, chooseGeometry, chooseSummary, applyTraffic, applyBuffer, bufferMinutes,
    maxSeverity, severityCondition, delayFactorFor, avgDuration, pyInt, pyRound,
    defaultSettings, ceil_eq_neg_floor, abs]
  norm_num

/-- C1 counterexample: on the basic scenario (a 30-second base duration,
delay multipliers all ≥ 1, buffers ≥ 0) the pipeline returns
`eta_seconds = 30` with `typical_eta_minutes = 1`, and `30 < 1 × 60`: the
claimed invariant `eta_seconds ≥ typical_eta_minutes × 60` fails. -/
theorem eta_seconds_vs_typical_cex :
    (compute_eta_with_traffic defaultSettings (some ⟨some 5, some 30, none, none⟩) none 5
        (some (none, none))).map (fun e => (e.eta_seconds, e.typical_eta_minutes)) =
      some (30, some 1) ∧ ¬ (60 * (1 : ℤ) ≤ 30) := by
  rw [exBasicScenario_eq]
  exact ⟨rfl, by norm_num⟩

/-- C1 (amended): with every delay multiplier ≥ 1 and non-negative
configured buffers the adjustments never subtract time:
`eta_minutes ≥ typical_eta_minutes` and
`eta_seconds ≥ 60 × typical_eta_minutes − 59` (`typical_eta_minutes` is
the rounded-up minute count of the base, so `eta_seconds` may sit up to
59 s below `typical × 60`). -/
theorem eta_adjustments_never_subtract (s : Settings) (gomap osrm : Option Route)
    (hkm : ℚ) (tf : Option (Option GoMapTraffic × Option GoMapTraffic))
    (hfac : ∀ c, 1 ≤ delayFactorFor s.TRAFFIC_DELAY_FACTORS c)
    (hbuf : 0 ≤ s.ETA_BUFFER_MINUTES) (hbufH : 0 ≤ s.ETA_HEAVY_BUFFER_MINUTES) :
    ∀ e t, compute_eta_with_traffic s gomap osrm hkm tf = some e →
      e.typical_eta_minutes = some t →
      t ≤ e.eta_minutes ∧ 60 * t - 59 ≤ e.eta_seconds := by
  intro e t he ht
  rcases hd : baseDuration s gomap osrm hkm with _ | d
  · rw [compute_eta_none_of_noDuration s gomap osrm hkm tf hd] at he; cases he
  · by_cases hne : gomap = none ∧ osrm = none
    · obtain ⟨h1, h2⟩ := hne
      subst h1; subst h2
      rw [baseDuration_both_none] at hd
      cases hd
    · rw [compute_eta_eq s gomap osrm hkm tf d hd hne] at he
      have he' := Option.some.inj he
      subst he'
      simp only [assembleEta, trafficStage] at ht ⊢
      have ht' := Option.some.inj ht
      subst ht'
      have h1 := applyTraffic_minutes_ge s (s.GOMAP_TRAFFIC_ENABLED && gomap.isSome)
        tf (max 1 d) (by omega)
      have h2 := applyTraffic_seconds_ge s (s.GOMAP_TRAFFIC_ENABLED && gomap.isSome)
        tf (max 1 ⌈((max 1 d : ℤ) : ℚ) / 60⌉) (max 1 d) (by omega)
      have h3 := applyBuffer_ge s
        (applyTraffic s (s.GOMAP_TRAFFIC_ENABLED && gomap.isSome) tf
          (max 1 ⌈((max 1 d : ℤ) : ℚ) / 60⌉) (max 1 d)).2.2.1
        (applyTraffic s (s.GOMAP_TRAFFIC_ENABLED && gomap.isSome) tf
          (max 1 ⌈((max 1 d : ℤ) : ℚ) / 60⌉) (max 1 d)).1
        (applyTraffic s (s.GOMAP_TRAFFIC_ENABLED && gomap.isSome) tf
          (max 1 ⌈((max 1 d : ℤ) : ℚ) / 60⌉) (max 1 d)).2.1
      have h4 := sixty_mul_baseMinutes_le (max 1 d) (by omega)
      omega

/-- C1 witness: the basic scenario satisfies the amended bounds. -/
theorem eta_adjustments_never_subtract_witness :
    (1 : ℤ) ≤ (EtaComputation.mk 1 30 (some 5) (some 1) (some "unknown") none
      "gomap" none none none).eta_minutes ∧
    60 * 1 - 59 ≤ (EtaComputation.mk 1 30 (some 5) (some 1) (some "unknown") none
      "gomap" none none none).eta_seconds :=
  eta_adjustments_never_subtract defaultSettings (some ⟨some 5, some 30, none, none⟩)
    none 5 (some (none, none))
    (fun c => by unfold delayFactorFor; split_ifs <;> norm_num [defaultSettings])
    (by norm_num [defaultSettings]) (by norm_num [defaultSettings])
    (EtaComputation.mk 1 30 (some 5) (some 1) (some "unknown") none "gomap" none none none)
    1 exBasicScenario_eq rfl

/-- C6: with traffic disabled or yielding no severity signal (and a
non-negative configured buffer) `eta_seconds` is exactly the base duration
plus `ETA_BUFFER_MINUTES × 60`; in every case — any settings, any traffic —
`eta_seconds` is never below the base duration; `build_fallback_eta` gives
exactly `fallback_minutes × 60` seconds (when `fallback_minutes ≥ 1`) and
never less. -/
theorem traffic_additivity :
    (∀ (s : Settings) (gomap osrm : Option Route) (hkm : ℚ)
       (tf : Option (Option GoMapTraffic × Option GoMapTraffic)) (d : ℤ)
       (e : EtaComputation),
       noTrafficSignal (s.GOMAP_TRAFFIC_ENABLED && gomap.isSome) tf →
       0 ≤ s.ETA_BUFFER_MINUTES →
       baseDuration s gomap osrm hkm = some d →
       compute_eta_with_traffic s gomap osrm hkm tf = some e →
       e.eta_seconds = max 1 d + s.ETA_BUFFER_MINUTES * 60) ∧
    (∀ (s : Settings) (gomap osrm : Option Route) (hkm : ℚ)
       (tf : Option (Option GoMapTraffic × Option GoMapTraffic)) (d : ℤ)
       (e : EtaComputation),
       baseDuration s gomap osrm hkm = some d →
       compute_eta_with_traffic s gomap osrm hkm tf = some e →
       max 1 d ≤ e.eta_seconds) ∧
    (∀ (dk : ℚ) (m : ℤ), 1 ≤ m → (build_fallback_eta dk m).eta_seconds = m * 60) ∧
    (∀ (dk : ℚ) (m : ℤ), m * 60 ≤ (build_fallback_eta dk m).eta_seconds) := by
  refine ⟨?_, ?_, ?_, ?_⟩
  · intro s gomap osrm hkm tf d e hsig hbuf hd he
    by_cases hne : gomap = none ∧ osrm = none
    · obtain ⟨h1, h2⟩ := hne
      subst h1; subst h2
      rw [baseDuration_both_none] at hd
      cases hd
    · rw [compute_eta_eq s gomap osrm hkm tf d hd hne] at he
      have he' := Option.some.inj he
      subst he'
      simp only [assembleEta, trafficStage]
      obtain ⟨hm, hs, hc, _⟩ := applyTraffic_noSignal s
        (s.GOMAP_TRAFFIC_ENABLED && gomap.isSome) tf
        (max 1 ⌈((max 1 d : ℤ) : ℚ) / 60⌉) (max 1 d) hsig
      rw [hm, hs]
      have hB : bufferMinutes s
          (applyTraffic s (s.GOMAP_TRAFFIC_ENABLED && gomap.isSome) tf
            (max 1 ⌈((max 1 d : ℤ) : ℚ) / 60⌉) (max 1 d)).2.2.1 =
          s.ETA_BUFFER_MINUTES := by
        rcases hc with hc | hc <;> rw [hc] <;> simp [bufferMinutes]
      by_cases hbp : 0 < s.ETA_BUFFER_MINUTES
      · simp only [applyBuffer, hB]
        rw [if_pos hbp]
      · have hb0 : s.ETA_BUFFER_MINUTES = 0 := by omega
        simp only [applyBuffer, hB]
        rw [if_neg hbp]
        show max 1 d = max 1 d + s.ETA_BUFFER_MINUTES * 60
        omega
  · intro s gomap osrm hkm tf d e hd he
    by_cases hne : gomap = none ∧ osrm = none
    · obtain ⟨h1, h2⟩ := hne
      subst h1; subst h2
      rw [baseDuration_both_none] at hd
      cases hd
    · rw [compute_eta_eq s gomap osrm hkm tf d hd hne] at he
      have he' := Option.some.inj he
      subst he'
      simp only [assembleEta, trafficStage]
      have h2 := applyTraffic_seconds_ge s (s.GOMAP_TRAFFIC_ENABLED && gomap.isSome)
        tf (max 1 ⌈((max 1 d : ℤ) : ℚ) / 60⌉) (max 1 d) (by omega)
      have h3 := applyBuffer_ge s
        (applyTraffic s (s.GOMAP_TRAFFIC_ENABLED && gomap.isSome) tf
          (max 1 ⌈((max 1 d : ℤ) : ℚ) / 60⌉) (max 1 d)).2.2.1
        (applyTraffic s (s.GOMAP_TRAFFIC_ENABLED && gomap.isSome) tf
          (max 1 ⌈((max 1 d : ℤ) : ℚ) / 60⌉) (max 1 d)).1
        (applyTraffic s (s.GOMAP_TRAFFIC_ENABLED && gomap.isSome) tf
          (max 1 ⌈((max 1 d : ℤ) : ℚ) / 60⌉) (max 1 d)).2.1
      omega
  · intro dk m hm
    simp only [build_fallback_eta]
    omega
  · intro dk m
    simp only [build_fallback_eta]
    omega

/-- C6 witness: disabled traffic, buffer 0: a 30-second base stays 30 s;
the fallback constructor turns 10 minutes into 600 s. -/
theorem traffic_additivity_witness :
    (EtaComputation.mk 1 30 (some 5) (some 1) (some "unknown") none
      "gomap" none none none).eta_seconds =
      max 1 30 + defaultSettings.ETA_BUFFER_MINUTES * 60 ∧
    (build_fallback_eta 1 10).eta_seconds = 10 * 60 := by
  constructor
  · refine traffic_additivity.1 defaultSettings (some ⟨some 5, some 30, none, none⟩)
      none 5 (some (none, none)) 30 _ ?_ (by norm_num [defaultSettings]) ?_
      exBasicScenario_eq
    · exact Or.inr (Or.inr ⟨(none, none), rfl, by simp [maxSeverity]⟩)
    · simp [baseDuration, pickBase, chooseDuration]
  · exact traffic_additivity.2.2.1 1 10 (by norm_num)

/-- C7 counterexample: `build_fallback_eta` does not clamp `eta_minutes`:
with `fallback_minutes = 0` the returned `eta_minutes` is 0, not ≥ 1. -/
theorem build_fallback_eta_minutes_cex :
    (build_fallback_eta 1 0).eta_minutes = 0 ∧
    ¬ (1 ≤ (build_fallback_eta 1 0).eta_minutes) :=
  ⟨rfl, by norm_num [build_fallback_eta]⟩

/-- C7 (amended): every `EtaComputation` returned by
`compute_eta_with_traffic` has `eta_minutes ≥ 1` and `eta_seconds ≥ 1`;
`build_fallback_eta` always has `eta_seconds ≥ 1` but returns
`eta_minutes = fallback_minutes` unclamped (so `eta_minutes ≥ 1` only when
the caller passes `fallback_minutes ≥ 1`). -/
theorem eta_outputs_positive :
    (∀ (s : Settings) (gomap osrm : Option Route) (hkm : ℚ)
       (tf : Option (Option GoMapTraffic × Option GoMapTraffic))
       (e : EtaComputation),
       compute_eta_with_traffic s gomap osrm hkm tf = some e →
       1 ≤ e.eta_minutes ∧ 1 ≤ e.eta_seconds) ∧
    (∀ (dk : ℚ) (m : ℤ), (build_fallback_eta dk m).eta_minutes = m ∧
       1 ≤ (build_fallback_eta dk m).eta_seconds) := by
  constructor
  · intro s gomap osrm hkm tf e he
    rcases hd : baseDuration s gomap osrm hkm with _ | d
    · rw [compute_eta_none_of_noDuration s gomap osrm hkm tf hd] at he; cases he
    · by_cases hne : gomap = none ∧ osrm = none
      · obtain ⟨h1, h2⟩ := hne
        subst h1; subst h2
        rw [baseDuration_both_none] at hd
        cases hd
      · rw [compute_eta_eq s gomap osrm hkm tf d hd hne] at he
        have he' := Option.some.inj he
        subst he'
        simp only [assembleEta, trafficStage]
        have h1 := applyTraffic_minutes_ge s (s.GOMAP_TRAFFIC_ENABLED && gomap.isSome)
          tf (max 1 d) (by omega)
        have h2 := applyTraffic_seconds_ge s (s.GOMAP_TRAFFIC_ENABLED && gomap.isSome)
          tf (max 1 ⌈((max 1 d : ℤ) : ℚ) / 60⌉) (max 1 d) (by omega)
        have h3 := applyBuffer_ge s
          (applyTraffic s (s.GOMAP_TRAFFIC_ENABLED && gomap.isSome) tf
            (max 1 ⌈((max 1 d : ℤ) : ℚ) / 60⌉) (max 1 d)).2.2.1
          (applyTraffic s (s.GOMAP_TRAFFIC_ENABLED && gomap.isSome) tf
            (max 1 ⌈((max 1 d : ℤ) : ℚ) / 60⌉) (max 1 d)).1
          (applyTraffic s (s.GOMAP_TRAFFIC_ENABLED && gomap.isSome) tf
            (max 1 ⌈((max 1 d : ℤ) : ℚ) / 60⌉) (max 1 d)).2.1
        omega
  · intro dk m
    refine ⟨rfl, ?_⟩
    show (1 : ℤ) ≤ max 1 (m * 60)
    omega

/-- C7 witness: the amended bounds hold on the basic scenario and a
10-minute fallback. -/
theorem eta_outputs_positive_witness :
    (1 ≤ (EtaComputation.mk 1 30 (some 5) (some 1) (some "unknown") none
        "gomap" none none none).eta_minutes ∧
      1 ≤ (EtaComputation.mk 1 30 (some 5) (some 1) (some "unknown") none
        "gomap" none none none).eta_seconds) ∧
    ((build_fallback_eta 1 10).eta_minutes = 10 ∧
      1 ≤ (build_fallback_eta 1 10).eta_seconds) :=
  ⟨eta_outputs_positive.1 defaultSettings (some ⟨some 5, some 30, none, none⟩)
      none 5 (some (none, none)) _ exBasicScenario_eq,
    eta_outputs_positive.2 1 10⟩

/-- C8: duration normalization: numeric 7 (minutes) becomes 420 s, numeric
420 (already seconds) stays 420; the heuristic threshold is strictly 200
(above: seconds, at or below: minutes); and every input yields either
`none` or an integer ≥ 1. -/
theorem duration_normalization :
    normalize_duration_seconds (.vnum 7) = some 420 ∧
    normalize_duration_seconds (.vnum 420) = some 420 ∧
    (∀ q : ℚ, 200 < q →
      normalize_duration_seconds (.vnum q) = some (max 1 (pyRound q))) ∧
    (∀ q : ℚ, q ≤ 200 →
      normalize_duration_seconds (.vnum q) = some (max 1 (pyRound (q * 60)))) ∧
    (∀ v, normalize_duration_seconds v = none ∨
      ∃ n : ℤ, normalize_duration_seconds v = some n ∧ 1 ≤ n) := by
  refine ⟨?_, ?_, ?_, ?_, ?_⟩
  · norm_num [normalize_duration_seconds, finishDuration, pyRound]
  · norm_num [normalize_duration_seconds, finishDuration, pyRound]
  · intro q hq
    simp only [normalize_duration_seconds, finishDuration]
    rw [if_pos hq]
  · intro q hq
    simp only [normalize_duration_seconds, finishDuration]
    rw [if_neg (not_lt.mpr hq)]
  · intro v
    cases v with
    | vnone => exact Or.inl rfl
    | vnum q =>
        refine Or.inr ?_
        simp only [normalize_duration_seconds, finishDuration]
        by_cases h : 200 < q
        · exact ⟨_, by rw [if_pos h], le_max_left _ _⟩
        · exact ⟨_, by rw [if_neg h], le_max_left _ _⟩
    | vstr f =>
        have htail : strTail f = none ∨
            ∃ n : ℤ, strTail f = some n ∧ 1 ≤ n := by
          simp only [strTail]
          by_cases ht : 0 < (f.minuteMatch.getD 0) * 60 + f.secondMatch.getD 0
          · refine Or.inr ⟨_, by rw [if_pos ht], by exact_mod_cast ht⟩
          · rw [if_neg ht]
            cases hx : f.extractedNumber with
            | some q =>
                refine Or.inr ?_
                simp only [finishDuration]
                by_cases h : 200 < q
                · exact ⟨_, by rw [if_pos h], le_max_left _ _⟩
                · exact ⟨_, by rw [if_neg h], le_max_left _ _⟩
            | none =>
                cases hy : f.coerceFloat with
                | some q =>
                    refine Or.inr ?_
                    simp only [finishDuration]
                    by_cases h : 200 < q
                    · exact ⟨_, by rw [if_pos h], le_max_left _ _⟩
                    · exact ⟨_, by rw [if_neg h], le_max_left _ _⟩
                | none => exact Or.inl rfl
        simp only [normalize_duration_seconds]
        by_cases hu : f.hasUnderscore = true
        · rw [if_pos hu]
          cases hp : f.underscoreParse with
          | some hm =>
              exact Or.inr ⟨_, rfl, le_max_left _ _⟩
          | none => exact htail
        · rw [if_neg hu]
          exact htail

/-- C8 witness: a numeric 300 is above the threshold and is kept as
seconds. -/
theorem duration_normalization_witness :
    normalize_duration_seconds (.vnum 300) = some (max 1 (pyRound 300)) :=
  duration_normalization.2.2.1 300 (by norm_num)

/-- C9: out-of-range coordinates or a blank query short-circuit the two
provider operations to their absent value (`[]` / `None`) before the
cache/network section is ever reached. -/
theorem input_validation_rejects_before_network :
    (∀ (α : Type) (enabled : Bool) (term : String) (lat lon : ℚ) (limit : ℤ),
       (¬(-90 ≤ lat ∧ lat ≤ 90) ∨ ¬(-180 ≤ lon ∧ lon ≤ 180) ∨ term.trim = "") →
       search_objects_with_distance_guard α enabled term lat lon limit =
         .immediate []) ∧
    (∀ (enabled : Bool) (olat olon dlat dlon : ℚ),
       (¬(-90 ≤ olat ∧ olat ≤ 90) ∨ ¬(-180 ≤ olon ∧ olon ≤ 180) ∨
         ¬(-90 ≤ dlat ∧ dlat ≤ 90) ∨ ¬(-180 ≤ dlon ∧ dlon ≤ 180)) →
       route_directions_by_type_guard enabled olat olon dlat dlon =
         .immediate none) := by
  constructor
  · intro α enabled term lat lon limit h
    cases enabled with
    | false => simp [search_objects_with_distance_guard]
    | true =>
        by_cases hq : term.trim = ""
        · simp [search_objects_with_distance_guard, hq]
        · have hco : ¬(-90 ≤ lat ∧ lat ≤ 90) ∨ ¬(-180 ≤ lon ∧ lon ≤ 180) := by
            rcases h with h | h | h
            · exact Or.inl h
            · exact Or.inr h
            · exact absurd h hq
          unfold search_objects_with_distance_guard
          rw [if_neg (by simp : ¬ (!true : Bool) = true), if_neg hq, if_pos hco]
  · intro enabled olat olon dlat dlon h
    cases enabled with
    | false => simp [route_directions_by_type_guard]
    | true =>
        unfold route_directions_by_type_guard
        rw [if_neg (by simp : ¬ (!true : Bool) = true)]
        by_cases h1 : ¬(-90 ≤ olat ∧ olat ≤ 90) ∨ ¬(-180 ≤ olon ∧ olon ≤ 180)
        · rw [if_pos h1]
        · rw [if_neg h1]
          have h2 : ¬(-90 ≤ dlat ∧ dlat ≤ 90) ∨ ¬(-180 ≤ dlon ∧ dlon ≤ 180) := by
            rcases h with h | h | h | h
            · exact absurd (Or.inl h) h1
            · exact absurd (Or.inr h) h1
            · exact Or.inl h
            · exact Or.inr h
          rw [if_pos h2]

/-- C9 witness: latitude 91 is rejected by both operations. -/
theorem input_validation_rejects_before_network_witness :
    search_objects_with_distance_guard Unit true "cafe" 91 10 10 =
      .immediate [] ∧
    route_directions_by_type_guard true 91 10 40 49 = .immediate none :=
  ⟨input_validation_rejects_before_network.1 Unit true "cafe" 91 10 10
      (Or.inl (by norm_num)),
    input_validation_rejects_before_network.2 true 91 10 40 49
      (Or.inl (by norm_num))⟩

/-- C10 (implicit): when neither provider's route carries a duration the
pipeline returns `None`, even if a route with a distance and geometry was
returned. -/
theorem compute_eta_none_without_any_duration (s : Settings)
    (gomap osrm : Option Route) (hkm : ℚ)
    (tf : Option (Option GoMapTraffic × Option GoMapTraffic))
    (hg : ∀ g, gomap = some g → g.duration_seconds = none)
    (ho : ∀ o, osrm = some o → o.duration_seconds = none) :
    compute_eta_with_traffic s gomap osrm hkm tf = none := by
  apply compute_eta_none_of_noDuration
  have hbase : ∀ b, (pickBase s gomap osrm hkm).1 = some b →
      b.duration_seconds = none := by
    intro b hb
    rcases gomap with _ | g
    · rcases osrm with _ | o
      · simp [pickBase] at hb
      · simp [pickBase] at hb
        subst hb
        exact ho o rfl
    · rcases osrm with _ | o
      · simp [pickBase] at hb
        subst hb
        exact hg g rfl
      · have hgd := hg g rfl
        have hod := ho o rfl
        rcases hgdist : g.distance_km with _ | gd <;>
          rcases hodist : o.distance_km with _ | od <;>
          simp only [pickBase, Option.some_bind, hgdist, hodist, hgd, hod] at hb
        · exact (Option.some.inj hb) ▸ hgd
        · exact (Option.some.inj hb) ▸ hgd
        · exact (Option.some.inj hb) ▸ hgd
        · split at hb
          · split at hb
            · simp only at hb
              exact (Option.some.inj hb) ▸ hod
            · split at hb
              · simp only at hb
                exact (Option.some.inj hb) ▸ hod
              · simp only at hb
                exact (Option.some.inj hb) ▸ hgd
          · simp only at hb
            exact (Option.some.inj hb) ▸ hgd
  unfold baseDuration
  rcases hpb : (pickBase s gomap osrm hkm).1 with _ | b
  · simp only [chooseDuration]
    rcases osrm with _ | o
    · rcases gomap with _ | g
      · rfl
      · simp [hg g rfl]
    · simp [ho o rfl]
  · have hbd := hbase b hpb
    simp only [chooseDuration, hbd]
    rcases osrm with _ | o
    · rcases gomap with _ | g
      · rfl
      · simp [hg g rfl]
    · simp [ho o rfl]

/-- C10 witness: a primary route carrying a distance and geometry but no
duration (and no secondary) yields no ETA. -/
theorem compute_eta_none_without_any_duration_witness :
    compute_eta_with_traffic defaultSettings
        (some ⟨some (26/5), none, some [(0, 0)], some "x"⟩) none 5 (some (none, none)) =
      none :=
  compute_eta_none_without_any_duration defaultSettings
    (some ⟨some (26/5), none, some [(0, 0)], some "x"⟩) none 5 (some (none, none))
    (fun g hg => by cases hg; rfl) (fun o ho => by cases ho)
